import Mathlib

/-!
Verification of the mobile-qa-agent control loop against its specification.

The development is a shallow embedding of the Python sources:
  * `src/tools/adb.py`         -- `ADBInterface` (device layer)
  * `src/tools/ai_provider.py` -- `AIProvider._fallback_response`
  * `src/agents/planner.py`    -- `PlannerAgent.plan_next_action`
  * `src/agents/executor.py`   -- `ExecutorAgent.execute_action` and handlers
  * `src/agents/supervisor.py` -- `SupervisorAgent.evaluate_test_result`
  * `src/main.py`              -- `TestRunner.run_single_test` main loop
  * `src/app.py`               -- `should_continue`

JSON values (the dicts passed between agents) are embedded as the inductive
`Json`; Python dicts are association lists looked up by key.  Model calls,
device calls and their outcomes are supplied as explicit oracle data, since
they are I/O in the source.  Numbers are embedded as `Int` and Python float
arithmetic `int((p/100)*dim)` as exact rational truncation `Int.tdiv (p*dim) 100`
(all concrete inputs used below are exactly representable, so the embedding
agrees with the float computation on them).
-/

/-- Embedded JSON values: the wire contract between Planner and Executor. -/
inductive Json where
  | null : Json
  | bool : Bool → Json
  | num : Int → Json
  | str : String → Json
  | arr : List Json → Json
  | obj : List (String × Json) → Json
deriving Repr

/-- Dictionary lookup (`d[k]` / `d.get(k)` on a parsed JSON object). -/
def Json.lookup : Json → String → Option Json
  | .obj fields, k => go fields k
  | _, _ => none
where
  go : List (String × Json) → String → Option Json
  | [], _ => none
  | (k₀, v) :: rest, k => if k₀ = k then some v else go rest k

/-- Lookup on a raw field list. -/
def jget (fields : List (String × Json)) (k : String) : Option Json :=
  Json.lookup.go fields k

/-- Python `if k not in d: d[k] = v` — append a default when the key is absent. -/
def withDefault (fields : List (String × Json)) (k : String) (v : Json) :
    List (String × Json) :=
  if (jget fields k).isSome then fields else fields ++ [(k, v)]

/-- Python `d[k] = v` — overwrite the first binding or append. -/
def setKey : List (String × Json) → String → Json → List (String × Json)
  | [], k, v => [(k, v)]
  | (k₀, v₀) :: rest, k, v =>
    if k₀ = k then (k, v) :: rest else (k₀, v₀) :: setKey rest k v

/-- Python `v == s` for a looked-up JSON value against a string literal:
true exactly when the value is present and is that string. -/
def isStrVal (v : Option Json) (s : String) : Bool :=
  match v with
  | some (.str t) => t = s
  | _ => false

/-- Python truthiness of a JSON value (`if not text:` in the Executor). -/
def pyTruthy : Json → Bool
  | .null => false
  | .bool b => b
  | .num n => n ≠ 0
  | .str s => ¬ s.isEmpty
  | .arr xs => ¬ xs.isEmpty
  | .obj fs => ¬ fs.isEmpty

/-- The six action kinds of the Action Protocol (§3 of the spec). -/
def recognizedKinds : List String :=
  ["tap", "type", "press_key", "swipe", "wait", "complete"]

section Planner
/-!
`PlannerAgent.plan_next_action` (src/agents/planner.py, lines 112–188).

Each loop attempt submits the prompt to the model and processes the reply.
The oracle datum for one attempt is either an exception raised by
`provider.generate_content` (carrying its message, classified by the
`'429' in msg or 'rate_limit' in msg` test of the source) or a returned
text, which we embed post-cleaning as the result of `json.loads`:
`none` for a `JSONDecodeError`, `some j` for a parsed value `j`.
-/

/-- Oracle datum for one planner (or supervisor) retry-loop attempt. -/
inductive AttemptOutcome where
  | exn : String → AttemptOutcome
  | response : Option Json → AttemptOutcome
deriving Repr

/-- `pat` is a leading segment of `s`. -/
def startsWithList : List Char → List Char → Bool
  | _, [] => true
  | [], _ :: _ => false
  | a :: as, b :: bs => a = b && startsWithList as bs

/-- Python `pat in s` for strings: `pat` occurs contiguously in `s`. -/
def hasSub : List Char → List Char → Bool
  | [], pat => pat.isEmpty
  | s@(_ :: rest), pat => startsWithList s pat || hasSub rest pat

/-- Python `str.lower()`, character-wise (the source only lower-cases ASCII
key names and error messages). -/
def pyLower (s : String) : String :=
  String.mk (s.toList.map Char.toLower)

/-- `'429' in error_msg or 'rate_limit' in error_msg` over `str(e).lower()`. -/
def isRateLimitMsg (msg : String) : Bool :=
  hasSub ((pyLower msg).toList) ("429".toList)
    || hasSub ((pyLower msg).toList) ("rate_limit".toList)

/-- Error classes of one planner attempt: `json.JSONDecodeError` versus the
generic `except Exception` branch (which receives the `ValueError` for a
missing `action_type`, `TypeError` for a non-dict JSON value, and any
exception raised by the provider call). -/
inductive PlanErr where
  | jsonDecode : PlanErr
  | generic : String → PlanErr
deriving Repr

/-- One planner attempt body: validate the parsed reply or classify the error.
On success the source inserts defaults for `parameters` and `reasoning`. -/
def planAttempt : AttemptOutcome → Except PlanErr (List (String × Json))
  | .exn msg => .error (.generic msg)
  | .response none => .error .jsonDecode
  | .response (some (.obj fields)) =>
    if (jget fields "action_type").isSome then
      .ok (withDefault (withDefault fields "parameters" (.obj []))
            "reasoning" (.str "No reasoning provided"))
    else
      .error (.generic "Missing action_type")
  | .response (some _) => .error (.generic "TypeError: response is not a dict")

/-- The fallback actions of `plan_next_action`. -/
def completeFallback (reason : String) : Json :=
  .obj [("action_type", .str "complete"), ("parameters", .obj []),
        ("reasoning", .str reason)]

/-- The rate-limit-exhaustion fallback of `plan_next_action`. -/
def waitFallback : Json :=
  .obj [("action_type", .str "wait"),
        ("parameters", .obj [("seconds", .num 30)]),
        ("reasoning", .str "Rate limit exceeded")]

/-- The retry loop `for attempt in range(max_retries)` of `plan_next_action`,
embedded over the list of per-attempt oracle outcomes (one entry per
iteration, so a call with `max_retries = 3` takes a list of length 3).
A successful attempt returns immediately; an error on a non-final attempt
continues; an error on the final attempt returns the class-specific fallback;
the post-loop fallback is reached only on an empty attempt list. -/
def planLoop : List AttemptOutcome → Json
  | [] => completeFallback "Failed after retries"
  | [o] =>
    match planAttempt o with
    | .ok fields => .obj fields
    | .error .jsonDecode => completeFallback "Failed to parse response"
    | .error (.generic msg) =>
      if isRateLimitMsg msg then waitFallback
      else completeFallback ("Error: " ++ msg)
  | o :: rest =>
    match planAttempt o with
    | .ok fields => .obj fields
    | .error _ => planLoop rest

/-- `PlannerAgent.plan_next_action` with `max_retries` attempts supplied. -/
def planNextAction (outcomes : List AttemptOutcome) : Json :=
  planLoop outcomes

/-- `AIProvider._fallback_response` (src/tools/ai_provider.py, lines 253–259). -/
def fallbackResponse (reason : String) : Json :=
  .obj [("action_type", .str "wait"),
        ("parameters", .obj [("seconds", .num 2)]),
        ("reasoning", .str ("API error: " ++ reason))]

end Planner

section Supervisor
/-!
`SupervisorAgent.evaluate_test_result` (src/agents/supervisor.py, lines 137–212).

Before its retry loop the source unconditionally runs
`self._encode_image_to_base64(final_screenshot)`, which evaluates
`max(pil_image.size)`; with a `None` screenshot this raises an uncaught
`AttributeError`, so the whole call is embedded as `Except`: `.error` is an
exception escaping `evaluate_test_result`.  Frames are opaque.
-/

/-- Opaque captured screen frame. -/
structure Frame where
  id : Nat
deriving Repr, DecidableEq

/-- One supervisor attempt: fill the defaults the source enforces on a parsed
dict (`result` forced into PASS/FAIL, `reason`, `bug_found`, `details`), or
classify the attempt as an exception (the single generic `except Exception`
of the source also receives JSON decode errors and non-dict replies). -/
def evalAttempt : AttemptOutcome → Except String (List (String × Json))
  | .exn msg => .error msg
  | .response none => .error "JSONDecodeError"
  | .response (some (.obj fields)) =>
    let fields :=
      if isStrVal (jget fields "result") "PASS"
          || isStrVal (jget fields "result") "FAIL" then fields
      else setKey fields "result" (.str "FAIL")
    let fields := withDefault fields "reason" (.str "No reason")
    let fields := withDefault fields "bug_found" (.bool false)
    let fields := withDefault fields "details" (.str "No details")
    .ok fields
  | .response (some _) => .error "TypeError: evaluation is not a dict"

/-- The error-path verdict returned on the final failed attempt. -/
def evalErrorVerdict (msg : String) : Json :=
  .obj [("result", .str "FAIL"), ("reason", .str "Evaluation failed"),
        ("bug_found", .bool false), ("details", .str ("Error: " ++ msg))]

/-- The post-loop verdict (reached only on an empty attempt list). -/
def evalExhaustedVerdict : Json :=
  .obj [("result", .str "FAIL"), ("reason", .str "Failed after retries"),
        ("bug_found", .bool false), ("details", .str "Evaluation failed")]

/-- The retry loop of `evaluate_test_result` over the attempt oracle. -/
def evalLoop : List AttemptOutcome → Json
  | [] => evalExhaustedVerdict
  | [o] =>
    match evalAttempt o with
    | .ok fields => .obj fields
    | .error msg => evalErrorVerdict msg
  | o :: rest =>
    match evalAttempt o with
    | .ok fields => .obj fields
    | .error _ => evalLoop rest

/-- `SupervisorAgent.evaluate_test_result`: encodes the final screenshot first
(raising on `None`), then runs the retry loop. -/
def evaluateTestResult (finalScreenshot : Option Frame)
    (outcomes : List AttemptOutcome) : Except String Json :=
  match finalScreenshot with
  | none => .error "AttributeError: NoneType object has no attribute size"
  | some _ => .ok (evalLoop outcomes)

end Supervisor

section Orchestrator
/-!
The two orchestration variants in the source.

`should_continue` (src/app.py, lines 60–66) is the LangGraph PLAN-branch
router: it returns `"end"` exactly when the planned kind is `complete` or the
step counter has reached 12 (its hard-coded maximum).

`TestRunner.run_single_test` (src/main.py, lines 96–153) is the main loop:
`for step in range(1, max_steps + 1)`, each iteration captures a screenshot
(aborting the loop when it is `None`), plans, breaks before executing when
the planned kind is `complete`, otherwise executes and appends one history
entry.  Per-step screenshot availability, the planner output and the executor
result are oracle data.  The planner output is consulted with `.lookup`,
since every value `plan_next_action` can return carries `action_type`.
-/

/-- `should_continue` of src/app.py: route the PLAN branch. -/
def shouldContinue (lastPlan : Json) (stepCount : Nat) : String :=
  if isStrVal (lastPlan.lookup "action_type") "complete" || stepCount ≥ 12 then
    "end"
  else
    "continue"

/-- Oracle data for one iteration of `run_single_test`: the captured
screenshot (or `None`), the planner reply, and the executor result fields
read by the history-entry construction. -/
structure StepOracle where
  screenshot : Option Frame
  action : Json
  execStatus : Json
  execMessage : Json
deriving Repr

/-- One recorded history entry (`history_entry` in src/main.py, lines 138–145). -/
structure HistoryEntry where
  step : Nat
  action : Option Json
  status : Json
  message : Json
  reason : Option Json
deriving Repr

/-- The entry appended at `step` for oracle datum `o`. -/
def mkEntry (step : Nat) (o : StepOracle) : HistoryEntry :=
  { step := step
    action := o.action.lookup "action_type"
    status := o.execStatus
    message := o.execMessage
    reason := o.action.lookup "reasoning" }

/-- The loop body from step `s` with `fuel` iterations left, returning the
accumulated history at termination.  `fuel = max_steps - (s - 1)` initially;
the loop breaks on a missing screenshot or a `complete` plan. -/
def runSteps (oracle : Nat → StepOracle) : Nat → Nat → List HistoryEntry
  | _, 0 => []
  | s, fuel + 1 =>
    let o := oracle s
    match o.screenshot with
    | none => []
    | some _ =>
      if isStrVal (o.action.lookup "action_type") "complete" then []
      else mkEntry s o :: runSteps oracle (s + 1) fuel

/-- `run_single_test`: the execution history recorded by the main loop. -/
def runSingleTest (oracle : Nat → StepOracle) (maxSteps : Nat) :
    List HistoryEntry :=
  runSteps oracle 1 maxSteps

end Orchestrator

section Executor
/-!
`ExecutorAgent.execute_action` and its handlers
(src/agents/executor.py, lines 14–204), plus the standalone device-layer
functions of `ADBInterface` (src/tools/adb.py) that they call.

Device calls are I/O.  Each handler is embedded as a function returning
`Except String Json × List DevCall`: the first component is the returned
result dict or the text of a Python exception crossing the handler, the
second is the ordered trace of calls issued to the device layer before
returning.  The `try/except` of `execute_action` converts an escaping
exception into the failure dict.  The `Device` record supplies each device
call's outcome (value or raised-exception text); the vision results consumed
by `_execute_verify` are opaque strings (`VisionTools` returns strings and
does not raise).

Python float expressions `int((p / 100) * dim)` are embedded as the exact
truncated rational `Int.tdiv (p * dim) 100`.
-/

/-- A call crossing the Executor → device boundary, with its arguments. -/
inductive DevCall where
  | getScreenSize : DevCall
  | tap : Int → Int → DevCall
  | typeText : Json → DevCall
  | pressKey : Int → DevCall
  | swipe : Int → Int → Int → Int → Json → DevCall
  | getScreenshot : DevCall
deriving Repr

/-- Oracle outcomes for the device layer as seen by the Executor: each field
is the value returned by the corresponding `ADBInterface` method, or the text
of an exception it raises. -/
structure Device where
  screenSizeResp : Except String (Int × Int)
  tapResp : Except String Bool
  typeResp : Except String Bool
  keyResp : Except String Bool
  swipeResp : Except String Bool
  screenshotResp : Except String (Option Frame)

/-- Oracle outcomes for the vision layer used by `_execute_verify`. -/
structure VisionEnv where
  verifyTextRes : String
  checkElementRes : String
  verifyColorRes : String

/-- A handler outcome: the value produced (or the exception text) and the
trace of device calls issued. -/
abbrev ExecRes := Except String Json × List DevCall

/-- Python `d.get(k, default)` on a JSON object. -/
def pyGet (d : Json) (k : String) (default : Json) : Json :=
  match d.lookup k with
  | some v => v
  | none => default

/-- Python `j == s` for a JSON value against a string literal. -/
def jsonEqStr (j : Json) (s : String) : Bool :=
  match j with
  | .str t => t = s
  | _ => false

/-- Coerce a JSON value used in Python arithmetic to a number
(`bool` is an `int` subclass in Python; anything else raises `TypeError`). -/
def toNum : Json → Except String Int
  | .num n => .ok n
  | .bool b => .ok (if b then 1 else 0)
  | _ => .error "TypeError: unsupported operand type"

/-- `str(x)` rendering used by the f-string messages of the source. -/
def pyStr : Json → String
  | .null => "None"
  | .bool true => "True"
  | .bool false => "False"
  | .num n => toString n
  | .str s => s
  | .arr _ => "[...]"
  | .obj _ => "dict"

/-- A failed local result (no exception): `success=False` with a message. -/
def failObj (msg : String) : Json :=
  .obj [("success", .bool false), ("message", .str msg), ("details", .obj [])]

/-- `_execute_tap` (lines 73–91): percentage coordinates with defaults 50,
`get_screen_size`, truncating scale, then one device tap. -/
def executeTap (params : Json) (dev : Device) : ExecRes :=
  let xpRaw := pyGet params "x_percent" (.num 50)
  let ypRaw := pyGet params "y_percent" (.num 50)
  match toNum xpRaw, toNum ypRaw with
  | .error e, _ => (.error e, [])
  | .ok _, .error e => (.error e, [])
  | .ok xp, .ok yp =>
    match dev.screenSizeResp with
    | .error e => (.error e, [.getScreenSize])
    | .ok (w, h) =>
      let x := Int.tdiv (xp * w) 100
      let y := Int.tdiv (yp * h) 100
      match dev.tapResp with
      | .error e => (.error e, [.getScreenSize, .tap x y])
      | .ok success =>
        (.ok (.obj [("success", .bool success),
          ("message", .str ("Tapped at (" ++ toString x ++ ", " ++ toString y
            ++ ") - " ++ pyStr xpRaw ++ "%, " ++ pyStr ypRaw ++ "%")),
          ("details", .obj [("x", .num x), ("y", .num y),
            ("x_percent", xpRaw), ("y_percent", ypRaw)])]),
         [.getScreenSize, .tap x y])

/-- `_execute_type` (lines 93–110): reject falsy text locally, otherwise one
device text-input call with the raw text (formatting happens in the ADB
layer).  The quotes of the source message are elided. -/
def executeType (params : Json) (dev : Device) : ExecRes :=
  let text := pyGet params "text" (.str "")
  if ¬ pyTruthy text then
    (.ok (failObj "No text provided to type"), [])
  else
    match dev.typeResp with
    | .error e => (.error e, [.typeText text])
    | .ok success =>
      (.ok (.obj [("success", .bool success),
        ("message", .str ("Typed text: " ++ pyStr text)),
        ("details", .obj [("text", text)])]),
       [.typeText text])

/-- The symbolic-name → key-code table of `_execute_press_key` (lines 116–121). -/
def executorKeyMap : List (String × Int) :=
  [("back", 4), ("home", 3), ("enter", 66), ("backspace", 67)]

/-- Association-list lookup for the key tables. -/
def tableGet : List (String × Int) → String → Option Int
  | [], _ => none
  | (k₀, v) :: rest, k => if k₀ = k then some v else tableGet rest k

/-- `_execute_press_key` (lines 112–136): lower-case the name, map it through
the executor table, fail locally on an unknown name.  A non-string key makes
`.lower()` raise `AttributeError` (caught by `execute_action`). -/
def executePressKey (params : Json) (dev : Device) : ExecRes :=
  match pyGet params "key" (.str "") with
  | .str s =>
    let key := pyLower s
    match tableGet executorKeyMap key with
    | none => (.ok (failObj ("Unknown key: " ++ key)), [])
    | some code =>
      match dev.keyResp with
      | .error e => (.error e, [.pressKey code])
      | .ok success =>
        (.ok (.obj [("success", .bool success),
          ("message", .str ("Pressed " ++ key ++ " key")),
          ("details", .obj [("key", .str key)])]),
         [.pressKey code])
  | _ => (.error "AttributeError: object has no attribute lower", [])

/-- `_execute_swipe` (lines 138–162): four percentage coordinates with the
source defaults, truncating scale, one device swipe. -/
def executeSwipe (params : Json) (dev : Device) : ExecRes :=
  match toNum (pyGet params "start_x_percent" (.num 50)),
        toNum (pyGet params "start_y_percent" (.num 80)),
        toNum (pyGet params "end_x_percent" (.num 50)),
        toNum (pyGet params "end_y_percent" (.num 20)) with
  | .ok sx, .ok sy, .ok ex, .ok ey =>
    let duration := pyGet params "duration" (.num 300)
    (match dev.screenSizeResp with
     | .error e => (.error e, [.getScreenSize])
     | .ok (w, h) =>
       let x1 := Int.tdiv (sx * w) 100
       let y1 := Int.tdiv (sy * h) 100
       let x2 := Int.tdiv (ex * w) 100
       let y2 := Int.tdiv (ey * h) 100
       match dev.swipeResp with
       | .error e => (.error e, [.getScreenSize, .swipe x1 y1 x2 y2 duration])
       | .ok success =>
         (.ok (.obj [("success", .bool success),
           ("message", .str ("Swiped from (" ++ toString x1 ++ ", "
             ++ toString y1 ++ ") to (" ++ toString x2 ++ ", "
             ++ toString y2 ++ ")")),
           ("details", .obj [("start_x", .num x1), ("start_y", .num y1),
             ("end_x", .num x2), ("end_y", .num y2)])]),
          [.getScreenSize, .swipe x1 y1 x2 y2 duration]))
  | .error e, _, _, _ => (.error e, [])
  | _, .error e, _, _ => (.error e, [])
  | _, _, .error e, _ => (.error e, [])
  | _, _, _, .error e => (.error e, [])

/-- `_execute_wait` (lines 164–173): `time.sleep(seconds)` raises `TypeError`
on a non-number and `ValueError` on a negative duration. -/
def executeWait (params : Json) : ExecRes :=
  let secsRaw := pyGet params "seconds" (.num 2)
  match toNum secsRaw with
  | .error e => (.error e, [])
  | .ok n =>
    if n < 0 then (.error "ValueError: sleep length must be non-negative", [])
    else (.ok (.obj [("success", .bool true),
      ("message", .str ("Waited " ++ pyStr secsRaw ++ " seconds")),
      ("details", .obj [("seconds", secsRaw)])]), [])

/-- `_execute_verify` (lines 175–204): always captures a screenshot first,
then dispatches on `verification_type`, unknown types failing locally. -/
def executeVerify (params : Json) (dev : Device) (vis : VisionEnv) : ExecRes :=
  let vt := pyGet params "verification_type" .null
  match dev.screenshotResp with
  | .error e => (.error e, [.getScreenshot])
  | .ok _shot =>
    let res :=
      if jsonEqStr vt "text" then some vis.verifyTextRes
      else if jsonEqStr vt "element" then some vis.checkElementRes
      else if jsonEqStr vt "color" then some vis.verifyColorRes
      else none
    match res with
    | none =>
      (.ok (failObj ("Unknown verification type: " ++ pyStr vt)),
       [.getScreenshot])
    | some r =>
      (.ok (.obj [("success", .bool true),
        ("message", .str ("Verification completed: " ++ pyStr vt)),
        ("details", .obj [("verification_type", vt), ("result", .str r)])]),
       [.getScreenshot])

/-- The dispatch body of `execute_action` (lines 26–64) inside its `try`. -/
def executeActionBody (action : Json) (dev : Device) (vis : VisionEnv) :
    ExecRes :=
  let actionType := pyGet action "action_type" .null
  let params := pyGet action "parameters" (.obj [])
  if jsonEqStr actionType "tap" then executeTap params dev
  else if jsonEqStr actionType "type" then executeType params dev
  else if jsonEqStr actionType "press_key" then executePressKey params dev
  else if jsonEqStr actionType "swipe" then executeSwipe params dev
  else if jsonEqStr actionType "wait" then executeWait params
  else if jsonEqStr actionType "verify" then executeVerify params dev vis
  else if jsonEqStr actionType "complete" then
    (.ok (.obj [("success", .bool true),
      ("message", .str "Test execution complete, ready for evaluation"),
      ("details", .obj [])]), [])
  else
    (.ok (failObj ("Unknown action type: " ++ pyStr actionType)), [])

/-- The `except Exception` result of `execute_action` (lines 66–71). -/
def execErrorObj (e : String) : Json :=
  .obj [("success", .bool false),
        ("message", .str ("Execution error: " ++ e)),
        ("details", .obj [("error", .str e)])]

/-- `ExecutorAgent.execute_action`: run the dispatch, catching any escaping
exception into the failure dict; always returns a result dict, with the
trace of the device calls issued. -/
def executeAction (action : Json) (dev : Device) (vis : VisionEnv) :
    Json × List DevCall :=
  match executeActionBody action dev vis with
  | (.ok r, calls) => (r, calls)
  | (.error e, calls) => (execErrorObj e, calls)

end Executor

section ADBLayer
/-!
The device layer proper: `ADBInterface` of src/tools/adb.py.  The shell
outcome of an issued `adb` command is the oracle Boolean `runOk`
(`result is not None and result.returncode == 0`).  Each function returns
its Boolean result together with the command payload it issued, `none`
meaning the function returned without issuing any shell command.
-/

/-- `ADBInterface.tap` (lines 158–174): negative coordinates are rejected
locally; otherwise the tap command is issued at the given pixel pair. -/
def adbTap (runOk : Bool) (x y : Int) : Bool × Option (Int × Int) :=
  if x < 0 || y < 0 then (false, none)
  else (runOk, some (x, y))

/-- Single-character `str.replace` on the character list of a string
(Python replaces each occurrence left to right; for a one-character pattern
this is exactly character-wise substitution). -/
def replaceChar (s : List Char) (c : Char) (rep : List Char) : List Char :=
  match s with
  | [] => []
  | a :: as => (if a = c then rep else [a]) ++ replaceChar as c rep

/-- The single-quote and double-quote characters. -/
def squote : Char := Char.ofNat 39

/-- The double-quote character. -/
def dquote : Char := Char.ofNat 34

/-- The text cleaning of `ADBInterface.type_text` (line 217):
`text.replace(' ', '%s').replace(squote, '').replace(dquote, '')`. -/
def formatText (s : List Char) : List Char :=
  replaceChar (replaceChar (replaceChar s ' ' ['%', 's']) squote []) dquote []

/-- `ADBInterface.type_text` (lines 203–221): empty text returns `False`
without issuing a command; otherwise the formatted text is sent. -/
def adbTypeText (runOk : Bool) (text : String) : Bool × Option (List Char) :=
  if text.isEmpty then (false, none)
  else (runOk, some (formatText text.toList))

/-- The name → key-code table of `ADBInterface.press_key` (lines 233–239). -/
def adbKeyMap : List (String × Int) :=
  [("enter", 66), ("back", 4), ("home", 3), ("backspace", 67), ("menu", 82)]

/-- The key-code resolution of `ADBInterface.press_key` (line 242):
`key_map.get(str(key).lower(), key)` — an unmapped name is passed through
verbatim, and the keyevent command is always issued. -/
def adbPressKeyCode (key : String ⊕ Int) : String ⊕ Int :=
  match key with
  | .inl name =>
    match tableGet adbKeyMap (pyLower name) with
    | some code => .inr code
    | none => .inl name
  | .inr code =>
    match tableGet adbKeyMap (pyLower (toString code)) with
    | some c => .inr c
    | none => .inr code

/-- `ADBInterface.press_key`: always issues `input keyevent <code>`. -/
def adbPressKey (runOk : Bool) (key : String ⊕ Int) :
    Bool × (String ⊕ Int) :=
  (runOk, adbPressKeyCode key)

/-- The character-wise transcription of the claim: every space becomes `%s`,
every single or double quote is deleted, all other characters are kept.
Stated from the claim text, to be compared with `formatText` (the source). -/
def claimTransform (s : List Char) : List Char :=
  match s with
  | [] => []
  | a :: as =>
    (if a = ' ' then ['%', 's']
     else if a = squote || a = dquote then []
     else [a]) ++ claimTransform as

end ADBLayer

section Fixtures
/-!
Concrete oracle data and action values used by the closed checks below.
-/

/-- A device oracle with a 1080×2400 screen where every command succeeds. -/
def sampleDevice : Device :=
  { screenSizeResp := .ok (1080, 2400)
    tapResp := .ok true
    typeResp := .ok true
    keyResp := .ok true
    swipeResp := .ok true
    screenshotResp := .ok (some { id := 0 }) }

/-- A device oracle whose `tap` raises an exception. -/
def boomDevice : Device :=
  { sampleDevice with tapResp := .error "boom" }

/-- Fixed vision-layer replies. -/
def sampleVision : VisionEnv :=
  { verifyTextRes := "FOUND: Yes"
    checkElementRes := "EXISTS"
    verifyColorRes := "COLOR_MATCH: No" }

/-- A tap action dict with the given percentage parameters. -/
def tapActionAt (xp yp : Int) : Json :=
  .obj [("action_type", .str "tap"),
        ("parameters", .obj [("x_percent", .num xp), ("y_percent", .num yp)])]

/-- A press-key action dict with the given key name. -/
def pressKeyAction (k : String) : Json :=
  .obj [("action_type", .str "press_key"),
        ("parameters", .obj [("key", .str k)])]

/-- A type action dict with the given parameter object. -/
def typeAction (params : Json) : Json :=
  .obj [("action_type", .str "type"), ("parameters", params)]

/-- A verify action dict with empty parameters. -/
def verifyAction : Json :=
  .obj [("action_type", .str "verify"), ("parameters", .obj [])]

/-- A run oracle that plans two taps and then a `complete` at step 3. -/
def sampleOracle : Nat → StepOracle := fun n =>
  if n = 3 then
    { screenshot := some { id := 3 }
      action := completeFallback "goal reached"
      execStatus := .str "success"
      execMessage := .str "" }
  else
    { screenshot := some { id := n }
      action := .obj [("action_type", .str "tap"), ("reasoning", .str "step")]
      execStatus := .str "success"
      execMessage := .str "ok" }

/-- A model response is malformed in the sense of the claim: not JSON, not a
dict, or a dict without `action_type`. -/
def isMalformedResponse : AttemptOutcome → Bool
  | .response none => true
  | .response (some (.obj fields)) => (jget fields "action_type").isNone
  | .response (some _) => true
  | .exn _ => false

/-- The scaling formula stated by the claim: `px = round(norm / 1000 * dim)`.
Stated from the claim text for comparison with the source computation; it is
only evaluated below at inputs where the quotient is an exact integer, so the
rounding mode does not matter. -/
def claimScale (norm dim : Int) : Int := Int.tdiv (norm * dim) 1000

/-- The seven `action_type` strings with a dispatch branch in
`execute_action` (the six recognized kinds plus `verify`). -/
def acceptedKinds : List String :=
  ["tap", "type", "press_key", "swipe", "wait", "verify", "complete"]

end Fixtures

section Lemmas
/-!
Small laws of the association-list dictionary operations, and the
homomorphism law of single-character replacement, used by the claim
theorems below.
-/

theorem jget_append_of_isSome (xs ys : List (String × Json)) (k : String)
    (h : (jget xs k).isSome) : jget (xs ++ ys) k = jget xs k := by
  induction xs with
  | nil => simp [jget, Json.lookup.go] at h
  | cons p rest ih =>
    obtain ⟨k₀, v⟩ := p
    by_cases hk : k₀ = k
    · simp [jget, Json.lookup.go, hk]
    · simp only [jget, Json.lookup.go, if_neg hk] at h ⊢
      exact ih h

theorem jget_append_of_none (xs ys : List (String × Json)) (k : String)
    (h : jget xs k = none) : jget (xs ++ ys) k = jget ys k := by
  induction xs with
  | nil => rfl
  | cons p rest ih =>
    obtain ⟨k₀, v⟩ := p
    by_cases hk : k₀ = k
    · simp [jget, Json.lookup.go, hk] at h
    · simp only [jget, Json.lookup.go, if_neg hk] at h ⊢
      exact ih h

theorem jget_withDefault_ne (fs : List (String × Json)) (k₂ k : String)
    (v : Json) (h : k₂ ≠ k) : jget (withDefault fs k₂ v) k = jget fs k := by
  unfold withDefault
  by_cases hs : (jget fs k₂).isSome
  · simp [hs]
  · simp only [hs, if_false, Bool.false_eq_true]
    cases hk : jget fs k with
    | some w =>
      rw [jget_append_of_isSome]
      · exact hk
      · simp [hk]
    | none =>
      rw [jget_append_of_none _ _ _ hk]
      simp [jget, Json.lookup.go, h]

theorem jget_setKey_self (fs : List (String × Json)) (k : String) (v : Json) :
    jget (setKey fs k v) k = some v := by
  induction fs with
  | nil => simp [setKey, jget, Json.lookup.go]
  | cons p rest ih =>
    obtain ⟨k₀, v₀⟩ := p
    by_cases hk : k₀ = k
    · simp [setKey, hk, jget, Json.lookup.go]
    · simp only [setKey, if_neg hk]
      simp only [jget, Json.lookup.go, if_neg hk]
      exact ih

theorem replaceChar_append (xs ys : List Char) (c : Char) (rep : List Char) :
    replaceChar (xs ++ ys) c rep = replaceChar xs c rep ++ replaceChar ys c rep := by
  induction xs with
  | nil => rfl
  | cons a as ih =>
    simp only [List.cons_append, replaceChar, List.append_eq, ih, List.append_assoc]

end Lemmas


theorem runSteps_length (oracle : Nat → StepOracle) :
    ∀ fuel s, (runSteps oracle s fuel).length ≤ fuel := by
  intro fuel
  induction fuel with
  | zero => intro s; simp [runSteps]
  | succ n ih =>
    intro s
    cases hs : (oracle s).screenshot with
    | none => simp [runSteps, hs]
    | some f =>
      cases hc : isStrVal ((oracle s).action.lookup "action_type") "complete" with
      | true => simp [runSteps, hs, hc]
      | false =>
        simp only [runSteps, hs, hc, Bool.false_eq_true, if_false, List.length_cons]
        exact Nat.succ_le_succ (ih (s + 1))

theorem runSteps_mem (oracle : Nat → StepOracle) :
    ∀ fuel s e, e ∈ runSteps oracle s fuel →
      (s ≤ e.step ∧ e.step < s + fuel) ∧
      ∀ k, s ≤ k → k ≤ e.step →
        isStrVal ((oracle k).action.lookup "action_type") "complete" = false := by
  intro fuel
  induction fuel with
  | zero => intro s e h; simp [runSteps] at h
  | succ n ih =>
    intro s e h
    cases hs : (oracle s).screenshot with
    | none => simp [runSteps, hs] at h
    | some f =>
      cases hc : isStrVal ((oracle s).action.lookup "action_type") "complete" with
      | true => simp [runSteps, hs, hc] at h
      | false =>
        simp only [runSteps, hs, hc, Bool.false_eq_true, if_false] at h
        have hstep : (mkEntry s (oracle s)).step = s := rfl
        rcases List.mem_cons.mp h with he | he
        · subst he
          rw [hstep]
          refine ⟨⟨le_refl _, by omega⟩, ?_⟩
          intro k hk1 hk2
          have hks : k = s := by omega
          rw [hks]
          exact hc
        · have hr := ih (s + 1) e he
          refine ⟨⟨by omega, by omega⟩, ?_⟩
          intro k hk1 hk2
          rcases Nat.eq_or_lt_of_le hk1 with hks | hlt
          · rw [← hks]
            exact hc
          · exact hr.2 k (by omega) hk2

/-- C1.  The PLAN branch terminates a run exactly on a `complete` plan or an
exhausted step budget: `should_continue` (src/app.py) routes to `end` iff the
planned kind is `complete` or the step counter has reached its hard-coded
maximum of 12; and the main loop of `run_single_test` (src/main.py) records
at most `max_steps` history entries, every recorded entry has a step in
`[1, max_steps]`, and no step up to and including a recorded one planned a
`complete` action — so a `complete` action is never followed by another
executed step. -/
theorem planBranchTermination :
    (∀ (oracle : Nat → StepOracle) (maxSteps : Nat),
      (runSingleTest oracle maxSteps).length ≤ maxSteps) ∧
    (∀ (oracle : Nat → StepOracle) (maxSteps : Nat) (e : HistoryEntry),
      e ∈ runSingleTest oracle maxSteps →
      (1 ≤ e.step ∧ e.step ≤ maxSteps) ∧
      ∀ k, 1 ≤ k → k ≤ e.step →
        isStrVal ((oracle k).action.lookup "action_type") "complete" = false) ∧
    (∀ (lastPlan : Json) (stepCount : Nat),
      shouldContinue lastPlan stepCount = "end" ↔
        (isStrVal (lastPlan.lookup "action_type") "complete" = true ∨
          12 ≤ stepCount)) := by
  refine ⟨?_, ?_, ?_⟩
  · intro oracle maxSteps
    exact runSteps_length oracle maxSteps 1
  · intro oracle maxSteps e he
    have h := runSteps_mem oracle maxSteps 1 e he
    exact ⟨⟨h.1.1, by omega⟩, h.2⟩
  · intro lastPlan stepCount
    unfold shouldContinue
    cases hc : isStrVal (lastPlan.lookup "action_type") "complete" with
    | true => simp [hc]
    | false =>
      by_cases hn : 12 ≤ stepCount
      · simp [hc, hn]
      · simp [hc, hn]

/-- Witness for C1 at a concrete oracle that plans `complete` at step 3 with
a budget of 5 steps. -/
theorem planBranchTermination_witness :
    (runSingleTest sampleOracle 5).length ≤ 5 ∧
    isStrVal ((sampleOracle 1).action.lookup "action_type") "complete" = false ∧
    shouldContinue (completeFallback "goal reached") 0 = "end" := by
  refine ⟨planBranchTermination.1 sampleOracle 5, ?_, ?_⟩
  · have hmem : mkEntry 1 (sampleOracle 1) ∈ runSingleTest sampleOracle 5 := by
      have hrun : runSingleTest sampleOracle 5
          = [mkEntry 1 (sampleOracle 1), mkEntry 2 (sampleOracle 2)] := by rfl
      rw [hrun]
      exact List.mem_cons_self _ _
    have h := planBranchTermination.2.1 sampleOracle 5 (mkEntry 1 (sampleOracle 1)) hmem
    exact h.2 1 (by decide) (by decide)
  · exact (planBranchTermination.2.2 (completeFallback "goal reached") 0).mpr
      (Or.inl (by rfl))

theorem planAttempt_malformed_err (o : AttemptOutcome)
    (h : isMalformedResponse o = true) :
    planAttempt o = .error .jsonDecode ∨
    planAttempt o = .error (.generic "Missing action_type") ∨
    planAttempt o = .error (.generic "TypeError: response is not a dict") := by
  cases o with
  | exn m => simp [isMalformedResponse] at h
  | response p =>
    cases p with
    | none => exact Or.inl rfl
    | some j =>
      cases j with
      | obj fields =>
        simp only [isMalformedResponse, Option.isNone_iff_eq_none] at h
        right; left
        simp [planAttempt, h]
      | null => right; right; rfl
      | bool b => right; right; rfl
      | num n => right; right; rfl
      | str s => right; right; rfl
      | arr xs => right; right; rfl

theorem notRateLimit_missing : isRateLimitMsg "Missing action_type" = false := by decide

theorem notRateLimit_typeerr :
    isRateLimitMsg "TypeError: response is not a dict" = false := by decide

theorem completeFallback_kind (r : String) :
    (completeFallback r).lookup "action_type" = some (.str "complete") := rfl

/-- C2 (amended).  For every sequence of model replies that are malformed in
the sense of failing JSON parsing, not being a dict, or lacking
`action_type`, `plan_next_action` returns the `complete` fallback — whose
kind is in the recognized set — and, being a total function, never raises
and never returns null.  (The original claim also covered replies carrying
an unrecognized kind; those are returned unchanged, see the
counterexample.) -/
theorem plannerMalformedFallback :
    ∀ outs : List AttemptOutcome, (∀ o ∈ outs, isMalformedResponse o = true) →
      (planNextAction outs).lookup "action_type" = some (.str "complete") ∧
      "complete" ∈ recognizedKinds := by
  intro outs hall
  refine ⟨?_, by decide⟩
  induction outs with
  | nil => rfl
  | cons o rest ih =>
    have ho := hall o (List.mem_cons_self _ _)
    have hrest : ∀ o ∈ rest, isMalformedResponse o = true :=
      fun x hx => hall x (List.mem_cons_of_mem _ hx)
    rcases planAttempt_malformed_err o ho with he | he | he
    · cases rest with
      | nil =>
        simp only [planNextAction, planLoop, he]
        exact completeFallback_kind _
      | cons o2 rest2 =>
        simpa [planNextAction, planLoop, he] using ih hrest
    · cases rest with
      | nil =>
        simp only [planNextAction, planLoop, he, notRateLimit_missing,
          Bool.false_eq_true, if_false]
        exact completeFallback_kind _
      | cons o2 rest2 =>
        simpa [planNextAction, planLoop, he] using ih hrest
    · cases rest with
      | nil =>
        simp only [planNextAction, planLoop, he, notRateLimit_typeerr,
          Bool.false_eq_true, if_false]
        exact completeFallback_kind _
      | cons o2 rest2 =>
        simpa [planNextAction, planLoop, he] using ih hrest

/-- Counterexample to C2 as stated: a well-formed reply whose `action_type`
is the unrecognized string `fly` is returned by `plan_next_action` verbatim;
kind membership in the six recognized variants is never validated. -/
theorem plannerUnknownKindPassthrough :
    (planNextAction [.response (some (.obj [("action_type", .str "fly")])),
        .response none, .response none]).lookup "action_type"
      = some (.str "fly") ∧
    "fly" ∉ recognizedKinds := by
  exact ⟨rfl, by decide⟩

/-- Witness for C2 (amended) on a concrete triple of malformed replies. -/
theorem plannerMalformedFallback_witness :
    (∀ o ∈ ([.response none, .response (some (.obj [("foo", .str "bar")])),
        .response (some (.str "not a dict"))] : List AttemptOutcome),
      isMalformedResponse o = true) ∧
    (planNextAction [.response none, .response (some (.obj [("foo", .str "bar")])),
        .response (some (.str "not a dict"))]).lookup "action_type"
      = some (.str "complete") := by
  refine ⟨by decide, ?_⟩
  exact (plannerMalformedFallback _ (by decide)).1

/-- Counterexample to C3 as stated: on persistent parse failure the planner
falls back to `complete` (not to a short `wait`), and on persistent
rate-limit errors it falls back to `wait` with 30 seconds (not `complete`) —
the exact opposite of the claimed assignment of fallback classes. -/
theorem plannerFallbacksSwapped :
    planNextAction [.response none, .response none, .response none]
      = completeFallback "Failed to parse response" ∧
    isStrVal ((planNextAction [.response none, .response none,
        .response none]).lookup "action_type") "wait" = false ∧
    planNextAction [.exn "HTTP error 429", .exn "HTTP error 429",
        .exn "HTTP error 429"] = waitFallback ∧
    waitFallback.lookup "parameters" = some (.obj [("seconds", .num 30)]) := by
  exact ⟨rfl, rfl, rfl, rfl⟩

/-- C3 (amended).  The planner fallback is chosen by failure class, but with
the classes assigned as the code does: persistent parse failure yields the
`complete` fallback `Failed to parse response`; persistent rate-limit errors
yield the `wait` fallback of 30 seconds; and the AIProvider transport
fallback `_fallback_response` is a `wait` of 2 seconds. -/
theorem plannerFallbackClasses :
    (∀ outs : List AttemptOutcome, outs ≠ [] →
      (∀ o ∈ outs, o = .response none) →
      planNextAction outs = completeFallback "Failed to parse response") ∧
    (∀ outs : List AttemptOutcome, outs ≠ [] →
      (∀ o ∈ outs, ∃ m, o = .exn m ∧ isRateLimitMsg m = true) →
      planNextAction outs = waitFallback) ∧
    (∀ reason,
      (fallbackResponse reason).lookup "action_type" = some (.str "wait") ∧
      (fallbackResponse reason).lookup "parameters"
        = some (.obj [("seconds", .num 2)])) := by
  refine ⟨?_, ?_, ?_⟩
  · intro outs
    induction outs with
    | nil => intro h; exact absurd rfl h
    | cons o rest ih =>
      intro _ hall
      have ho := hall o (List.mem_cons_self _ _)
      subst ho
      cases rest with
      | nil => rfl
      | cons o2 rest2 =>
        have hrest : ∀ o ∈ o2 :: rest2, o = .response none :=
          fun x hx => hall x (List.mem_cons_of_mem _ hx)
        simpa [planNextAction, planLoop, planAttempt] using
          ih (by simp) hrest
  · intro outs
    induction outs with
    | nil => intro h; exact absurd rfl h
    | cons o rest ih =>
      intro _ hall
      obtain ⟨m, hm, hrl⟩ := hall o (List.mem_cons_self _ _)
      subst hm
      cases rest with
      | nil =>
        simp [planNextAction, planLoop, planAttempt, hrl]
      | cons o2 rest2 =>
        have hrest : ∀ o ∈ o2 :: rest2, ∃ m, o = .exn m ∧ isRateLimitMsg m = true :=
          fun x hx => hall x (List.mem_cons_of_mem _ hx)
        simpa [planNextAction, planLoop, planAttempt] using
          ih (by simp) hrest
  · intro reason
    exact ⟨rfl, rfl⟩

/-- Witness for C3 (amended) on concrete attempt sequences. -/
theorem plannerFallbackClasses_witness :
    ([.response none] : List AttemptOutcome) ≠ [] ∧
    planNextAction [.response none] = completeFallback "Failed to parse response" ∧
    planNextAction [.exn "rate_limit hit"] = waitFallback ∧
    (fallbackResponse "Request timeout").lookup "action_type"
      = some (.str "wait") := by
  refine ⟨by simp, ?_, ?_, ?_⟩
  · exact plannerFallbackClasses.1 [.response none] (by simp) (by simp)
  · exact plannerFallbackClasses.2.1 [.exn "rate_limit hit"] (by simp)
      (by intro o ho
          simp only [List.mem_singleton] at ho
          exact ⟨"rate_limit hit", ho, by decide⟩)
  · exact (plannerFallbackClasses.2.2 "Request timeout").1

theorem evalAttempt_ok_result (o : AttemptOutcome) (fields : List (String × Json))
    (h : evalAttempt o = .ok fields) :
    isStrVal (jget fields "result") "PASS" = true ∨
    isStrVal (jget fields "result") "FAIL" = true := by
  cases o with
  | exn m => simp [evalAttempt] at h
  | response p =>
    cases p with
    | none => simp [evalAttempt] at h
    | some j =>
      cases j with
      | obj fs =>
        simp only [evalAttempt, Except.ok.injEq] at h
        subst h
        rw [jget_withDefault_ne _ _ _ _ (by decide),
          jget_withDefault_ne _ _ _ _ (by decide),
          jget_withDefault_ne _ _ _ _ (by decide)]
        cases hc : (isStrVal (jget fs "result") "PASS"
            || isStrVal (jget fs "result") "FAIL") with
        | true =>
          simp only [if_pos hc]
          exact Bool.or_eq_true_iff.mp hc
        | false =>
          simp only [hc, Bool.false_eq_true, if_false]
          right
          rw [jget_setKey_self]
          rfl
      | null => simp [evalAttempt] at h
      | bool b => simp [evalAttempt] at h
      | num n => simp [evalAttempt] at h
      | str s => simp [evalAttempt] at h
      | arr xs => simp [evalAttempt] at h

theorem evalLoop_result_cases (outs : List AttemptOutcome) :
    isStrVal ((evalLoop outs).lookup "result") "PASS" = true ∨
    isStrVal ((evalLoop outs).lookup "result") "FAIL" = true := by
  induction outs with
  | nil => right; rfl
  | cons o rest ih =>
    cases heval : evalAttempt o with
    | ok fields =>
      have hres := evalAttempt_ok_result o fields heval
      cases rest with
      | nil =>
        simp only [evalLoop, heval]
        exact hres
      | cons o2 rest2 =>
        simp only [evalLoop, heval]
        exact hres
    | error msg =>
      cases rest with
      | nil =>
        simp only [evalLoop, heval]
        right; rfl
      | cons o2 rest2 =>
        simp only [evalLoop, heval]
        exact ih

/-- C5 (amended).  Every verdict produced by `evaluate_test_result` has
`result` equal to `PASS` or `FAIL`; every error-path fallback verdict has
`result = FAIL` with `bug_found = false`; and with a non-null final frame the
evaluation returns the loop verdict without raising.  (The success path does
not enforce `bug_found → FAIL`: a model reply asserting both `PASS` and
`bug_found = true` is returned unchanged, see the counterexample.) -/
theorem verdictResultInvariant :
    (∀ outs : List AttemptOutcome,
      isStrVal ((evalLoop outs).lookup "result") "PASS" = true ∨
      isStrVal ((evalLoop outs).lookup "result") "FAIL" = true) ∧
    (∀ outs : List AttemptOutcome, outs ≠ [] →
      (∀ o ∈ outs, ∃ m, o = .exn m) →
      (evalLoop outs).lookup "result" = some (.str "FAIL") ∧
      (evalLoop outs).lookup "bug_found" = some (.bool false)) ∧
    (∀ (shot : Frame) (outs : List AttemptOutcome),
      evaluateTestResult (some shot) outs = .ok (evalLoop outs)) := by
  refine ⟨evalLoop_result_cases, ?_, fun _ _ => rfl⟩
  intro outs
  induction outs with
  | nil => intro h; exact absurd rfl h
  | cons o rest ih =>
    intro _ hall
    obtain ⟨m, hm⟩ := hall o (List.mem_cons_self _ _)
    subst hm
    cases rest with
    | nil => exact ⟨rfl, rfl⟩
    | cons o2 rest2 =>
      have hrest : ∀ o ∈ o2 :: rest2, ∃ m, o = .exn m :=
        fun x hx => hall x (List.mem_cons_of_mem _ hx)
      simpa [evalLoop, evalAttempt] using ih (by simp) hrest

/-- Counterexample to C5 as stated: a model reply carrying `result = PASS`
together with `bug_found = true` passes through `evaluate_test_result`
unchanged — `bug_found = true` co-occurs with `result = PASS`. -/
theorem verdictBugFoundWithPass :
    (evalLoop [.response (some (.obj [("result", .str "PASS"),
        ("bug_found", .bool true)])), .exn "e", .exn "e"]).lookup "result"
      = some (.str "PASS") ∧
    (evalLoop [.response (some (.obj [("result", .str "PASS"),
        ("bug_found", .bool true)])), .exn "e", .exn "e"]).lookup "bug_found"
      = some (.bool true) := by
  exact ⟨rfl, rfl⟩

/-- Witness for C5 (amended) on concrete attempt sequences. -/
theorem verdictResultInvariant_witness :
    (isStrVal ((evalLoop [.exn "boom"]).lookup "result") "PASS" = true ∨
      isStrVal ((evalLoop [.exn "boom"]).lookup "result") "FAIL" = true) ∧
    (evalLoop [.exn "boom", .exn "boom", .exn "boom"]).lookup "result"
      = some (.str "FAIL") ∧
    evaluateTestResult (some { id := 7 }) [.exn "boom"]
      = .ok (evalLoop [.exn "boom"]) := by
  refine ⟨verdictResultInvariant.1 [.exn "boom"], ?_, ?_⟩
  · exact (verdictResultInvariant.2.1 [.exn "boom", .exn "boom", .exn "boom"]
      (by simp)
      (by intro o ho
          simp only [List.mem_cons, List.not_mem_nil, or_false] at ho
          rcases ho with rfl | rfl | rfl <;> exact ⟨"boom", rfl⟩)).1
  · exact verdictResultInvariant.2.2 { id := 7 } [.exn "boom"]

/-- C7.  With a null final frame the supervisor evaluation does not produce
the claimed `no final frame` FAIL verdict: `evaluate_test_result` raises an
`AttributeError` in `_encode_image_to_base64` before its retry loop ever
runs, for every possible sequence of model outcomes. -/
theorem evaluateNullFrameRaises :
    ∀ outs : List AttemptOutcome, evaluateTestResult none outs
      = .error "AttributeError: NoneType object has no attribute size" :=
  fun _ => rfl

theorem tapScaling_trace (xp yp w h : Int) (dev : Device) (vis : VisionEnv)
    (hw : dev.screenSizeResp = .ok (w, h)) :
    (executeAction (tapActionAt xp yp) dev vis).2
      = [.getScreenSize, .tap (Int.tdiv (xp * w) 100) (Int.tdiv (yp * h) 100)] := by
  obtain ⟨ss, tapR, typeR, keyR, swipeR, shotR⟩ := dev
  dsimp only at hw
  subst hw
  rcases tapR with e | b <;> rfl

theorem tdiv_percent_bounds (p dim : Int) (h0 : 0 ≤ p) (h100 : p ≤ 100)
    (hd : 0 ≤ dim) :
    0 ≤ Int.tdiv (p * dim) 100 ∧ Int.tdiv (p * dim) 100 ≤ dim := by
  constructor
  · exact Int.tdiv_nonneg (mul_nonneg h0 hd) (by norm_num)
  · rw [Int.tdiv_eq_ediv (mul_nonneg h0 hd) (by norm_num)]
    calc (p * dim) / 100 ≤ (100 * dim) / 100 :=
          Int.ediv_le_ediv (by norm_num) (mul_le_mul_of_nonneg_right h100 hd)
      _ = dim := Int.mul_ediv_cancel_left dim (by norm_num)

/-- C4 (amended).  The Executor treats tap coordinates as percentages of
[0,100] with `px = int(p / 100 * dim)` (truncation): for a device reporting
screen size `(w, h)` the issued device tap is at
`(tdiv (xp*w) 100, tdiv (yp*h) 100)`; for percentages in `[0,100]` and
non-negative dimensions this pixel lies in `[0,w] × [0,h]`; no range check is
applied to the normalized input — only negative pixel coordinates are
rejected, by `ADBInterface.tap`, which returns `False` without issuing a
command. -/
theorem tapScalingPercent :
    (∀ (xp yp w h : Int) (dev : Device) (vis : VisionEnv),
      dev.screenSizeResp = .ok (w, h) →
      (executeAction (tapActionAt xp yp) dev vis).2
        = [.getScreenSize,
           .tap (Int.tdiv (xp * w) 100) (Int.tdiv (yp * h) 100)]) ∧
    (∀ (p dim : Int), 0 ≤ p → p ≤ 100 → 0 ≤ dim →
      0 ≤ Int.tdiv (p * dim) 100 ∧ Int.tdiv (p * dim) 100 ≤ dim) ∧
    (∀ (runOk : Bool) (x y : Int), x < 0 ∨ y < 0 →
      adbTap runOk x y = (false, none)) := by
  refine ⟨fun xp yp w h dev vis hw => tapScaling_trace xp yp w h dev vis hw,
    tdiv_percent_bounds, ?_⟩
  intro runOk x y hneg
  unfold adbTap
  rw [if_pos]
  rcases hneg with hx | hy
  · simp [hx]
  · simp [hy]

/-- Counterexample to C4 as stated: the in-range normalized input
`(500, 300)` on a 1080×2400 screen is scaled by the percentage formula to
the out-of-bounds pixel `(5400, 7200)` — not to the claimed
`round(norm/1000*dim) = (540, 720)` — and the tap is issued and succeeds
instead of being rejected. -/
theorem tapScalingCounterexample :
    (executeAction (tapActionAt 500 300) sampleDevice sampleVision).2
      = [.getScreenSize, .tap 5400 7200] ∧
    (executeAction (tapActionAt 500 300) sampleDevice sampleVision).1.lookup
      "success" = some (.bool true) ∧
    claimScale 500 1080 = 540 ∧
    ¬ (5400 : Int) ≤ 1080 ∧
    (5400 : Int) ≠ 540 := by
  exact ⟨rfl, rfl, by decide, by decide, by decide⟩

/-- Witness for C4 (amended) at concrete in-range and negative inputs. -/
theorem tapScalingPercent_witness :
    (executeAction (tapActionAt 50 25) sampleDevice sampleVision).2
      = [.getScreenSize, .tap 540 600] ∧
    (0 ≤ Int.tdiv (50 * 1080) 100 ∧ Int.tdiv (50 * 1080) 100 ≤ 1080) ∧
    adbTap true (-5) 10 = (false, none) := by
  refine ⟨?_, ?_, ?_⟩
  · have h := tapScalingPercent.1 50 25 1080 2400 sampleDevice sampleVision rfl
    simpa using h
  · exact tapScalingPercent.2.1 50 1080 (by decide) (by decide) (by decide)
  · exact tapScalingPercent.2.2 true (-5) 10 (Or.inl (by decide))

/-- C6 (amended).  `execute_action` never propagates an exception: whatever
the dispatch body produces, the caller receives a result dict — and whenever
the device layer raises, the dict is `execErrorObj` with `success = False`,
message `Execution error: <text>` and the exception text under
`details.error`.  The result has no `status` field; the Boolean field is
named `success` (see the counterexample). -/
theorem executorCatchesDeviceExceptions :
    (∀ (action : Json) (dev : Device) (vis : VisionEnv) (msg : String)
        (calls : List DevCall),
      executeActionBody action dev vis = (.error msg, calls) →
      executeAction action dev vis = (execErrorObj msg, calls)) ∧
    (∀ msg : String,
      (execErrorObj msg).lookup "success" = some (.bool false) ∧
      (execErrorObj msg).lookup "message"
        = some (.str ("Execution error: " ++ msg)) ∧
      (execErrorObj msg).lookup "details"
        = some (.obj [("error", .str msg)]) ∧
      (execErrorObj msg).lookup "status" = none) ∧
    (∀ (xp yp w h : Int) (dev : Device) (vis : VisionEnv) (msg : String),
      dev.screenSizeResp = .ok (w, h) → dev.tapResp = .error msg →
      executeAction (tapActionAt xp yp) dev vis
        = (execErrorObj msg,
           [.getScreenSize,
            .tap (Int.tdiv (xp * w) 100) (Int.tdiv (yp * h) 100)])) := by
  refine ⟨?_, ?_, ?_⟩
  · intro action dev vis msg calls hbody
    unfold executeAction
    rw [hbody]
  · intro msg
    exact ⟨rfl, rfl, rfl, rfl⟩
  · intro xp yp w h dev vis msg hw htap
    obtain ⟨ss, tapR, typeR, keyR, swipeR, shotR⟩ := dev
    dsimp only at hw htap
    subst hw
    subst htap
    rfl

/-- Counterexample to C6 as stated: when the device tap raises, the returned
dict carries no `status` field at all — the failure is reported through
`success = False` with the exception text in `details.error`. -/
theorem executorResultHasNoStatusField :
    (executeAction (tapActionAt 50 50) boomDevice sampleVision).1.lookup
      "status" = none ∧
    (executeAction (tapActionAt 50 50) boomDevice sampleVision).1.lookup
      "success" = some (.bool false) ∧
    (executeAction (tapActionAt 50 50) boomDevice sampleVision).1.lookup
      "details" = some (.obj [("error", .str "boom")]) := by
  exact ⟨rfl, rfl, rfl⟩

/-- Witness for C6 (amended) at a concrete raising device. -/
theorem executorCatchesDeviceExceptions_witness :
    executeAction (tapActionAt 50 50) boomDevice sampleVision
      = (execErrorObj "boom", [.getScreenSize, .tap 540 1200]) ∧
    (execErrorObj "boom").lookup "success" = some (.bool false) := by
  constructor
  · have h := executorCatchesDeviceExceptions.2.2 50 50 1080 2400 boomDevice
      sampleVision "boom" rfl rfl
    simpa using h
  · exact (executorCatchesDeviceExceptions.2.1 "boom").1

/-- C8 (amended).  The Executor dispatch accepts exactly the seven kinds
`tap, type, press_key, swipe, wait, verify, complete`: an action whose kind
matches none of them is rejected locally with `success = False` and
`Unknown action type`, with no device interaction; but the accepted set is
seven, not six — the `verify` handler is reachable and always performs a
device screenshot call (see the counterexample). -/
theorem executorDispatchKinds :
    (∀ (action : Json) (dev : Device) (vis : VisionEnv),
      (∀ k ∈ acceptedKinds,
        jsonEqStr (pyGet action "action_type" .null) k = false) →
      executeAction action dev vis
        = (failObj ("Unknown action type: "
            ++ pyStr (pyGet action "action_type" .null)), [])) ∧
    (∀ (params : Json) (dev : Device) (vis : VisionEnv),
      (executeVerify params dev vis).2 = [.getScreenshot]) := by
  constructor
  · intro action dev vis h
    have h1 := h "tap" (by decide)
    have h2 := h "type" (by decide)
    have h3 := h "press_key" (by decide)
    have h4 := h "swipe" (by decide)
    have h5 := h "wait" (by decide)
    have h6 := h "verify" (by decide)
    have h7 := h "complete" (by decide)
    unfold executeAction executeActionBody
    simp only [h1, h2, h3, h4, h5, h6, h7, Bool.false_eq_true, if_false]
  · intro params dev vis
    obtain ⟨ss, tapR, typeR, keyR, swipeR, shotR⟩ := dev
    rcases shotR with e | s
    · rfl
    · unfold executeVerify
      dsimp only
      split <;> rfl

/-- Counterexample to C8 as stated: `verify` is outside the six recognized
variants, yet its handler is dispatched and performs device interaction — a
screenshot call — rather than being rejected at validation. -/
theorem verifyActionDeviceInteraction :
    (executeAction verifyAction sampleDevice sampleVision).2
      = [.getScreenshot] ∧
    "verify" ∉ recognizedKinds := by
  exact ⟨rfl, by decide⟩

/-- Witness for C8 (amended) at a concrete unrecognized kind. -/
theorem executorDispatchKinds_witness :
    executeAction (.obj [("action_type", .str "fly")]) sampleDevice sampleVision
      = (failObj "Unknown action type: fly", []) ∧
    (executeVerify (.obj []) sampleDevice sampleVision).2 = [.getScreenshot] := by
  constructor
  · have h := executorDispatchKinds.1 (.obj [("action_type", .str "fly")])
      sampleDevice sampleVision (by decide)
    simpa using h
  · exact executorDispatchKinds.2 (.obj []) sampleDevice sampleVision

theorem pressKey_dispatch (s : String) (dev : Device) (vis : VisionEnv) :
    executeActionBody (pressKeyAction s) dev vis
      = executePressKey (.obj [("key", .str s)]) dev := rfl

/-- C9 (amended).  The Executor key table is
`{back: 4, home: 3, enter: 66, backspace: 67}` — without `menu`: a name that
lower-cases into the table yields exactly one device key-code call with the
mapped code, and any other name (including `menu`) produces a local
`success = False` result with no device call; the device layer keeps its own
table, which does map `menu` to 82, but the Executor never consults it for
names. -/
theorem executorKeyTable :
    (∀ (s : String) (code : Int) (dev : Device) (vis : VisionEnv),
      tableGet executorKeyMap (pyLower s) = some code →
      (executeAction (pressKeyAction s) dev vis).2 = [.pressKey code]) ∧
    (∀ (s : String) (dev : Device) (vis : VisionEnv),
      tableGet executorKeyMap (pyLower s) = none →
      executeAction (pressKeyAction s) dev vis
        = (failObj ("Unknown key: " ++ pyLower s), [])) ∧
    (tableGet executorKeyMap "back" = some 4 ∧
     tableGet executorKeyMap "home" = some 3 ∧
     tableGet executorKeyMap "enter" = some 66 ∧
     tableGet executorKeyMap "backspace" = some 67 ∧
     tableGet executorKeyMap "menu" = none) ∧
    adbPressKeyCode (.inl "menu") = .inr 82 := by
  refine ⟨?_, ?_, ⟨rfl, rfl, rfl, rfl, rfl⟩, rfl⟩
  · intro s code dev vis h
    unfold executeAction
    rw [pressKey_dispatch]
    unfold executePressKey
    simp only [pyGet, Json.lookup, Json.lookup.go, String.reduceEq, reduceIte, h]
    rcases dev.keyResp with e | b <;> rfl
  · intro s dev vis h
    unfold executeAction
    rw [pressKey_dispatch]
    unfold executePressKey
    simp only [pyGet, Json.lookup, Json.lookup.go, String.reduceEq, reduceIte, h]

/-- Counterexample to C9 as stated: the name `menu`, claimed to be in the
mapping table, is rejected locally by the Executor — `success = False`,
`Unknown key: menu`, and no device call is made. -/
theorem menuKeyFailsLocally :
    executeAction (pressKeyAction "menu") sampleDevice sampleVision
      = (failObj "Unknown key: menu", []) ∧
    tableGet adbKeyMap "menu" = some 82 := by
  exact ⟨rfl, rfl⟩

/-- Witness for C9 (amended) at the concrete names `BACK` and `volume_up`. -/
theorem executorKeyTable_witness :
    (executeAction (pressKeyAction "BACK") sampleDevice sampleVision).2
      = [.pressKey 4] ∧
    executeAction (pressKeyAction "volume_up") sampleDevice sampleVision
      = (failObj "Unknown key: volume_up", []) := by
  constructor
  · exact executorKeyTable.1 "BACK" 4 sampleDevice sampleVision (by decide)
  · have h := executorKeyTable.2.1 "volume_up" sampleDevice sampleVision (by decide)
    simpa using h

theorem formatText_append (xs ys : List Char) :
    formatText (xs ++ ys) = formatText xs ++ formatText ys := by
  unfold formatText
  rw [replaceChar_append, replaceChar_append, replaceChar_append]

theorem formatText_single (a : Char) :
    formatText [a] = (if a = ' ' then ['%', 's']
      else if a = squote || a = dquote then [] else [a]) := by
  by_cases h1 : a = ' '
  · subst h1; rfl
  · by_cases h2 : a = squote
    · subst h2; rfl
    · by_cases h3 : a = dquote
      · subst h3; rfl
      · simp [formatText, replaceChar, h1, h2, h3]

theorem formatText_eq_claimTransform (s : List Char) :
    formatText s = claimTransform s := by
  induction s with
  | nil => rfl
  | cons a as ih =>
    have hsplit : formatText (a :: as) = formatText [a] ++ formatText as := by
      rw [← List.singleton_append, formatText_append]
    rw [hsplit, ih, formatText_single]
    rfl

/-- C10.  A `type` action with empty (or missing) text fails locally with no
device call; otherwise the string sent by `ADBInterface.type_text` is the
requested text with every space replaced by `%s` and every single-quote and
double-quote character deleted — character-wise exactly the transformation
stated by the claim, so quoted text is transmitted altered, not escaped. -/
theorem typeTextContract :
    (∀ (params : Json) (dev : Device) (vis : VisionEnv),
      (params.lookup "text" = none ∨ params.lookup "text" = some (.str "")) →
      executeAction (typeAction params) dev vis
        = (failObj "No text provided to type", [])) ∧
    (∀ (runOk : Bool) (text : String), text ≠ "" →
      adbTypeText runOk text = (runOk, some (formatText text.toList))) ∧
    (∀ s : List Char, formatText s = claimTransform s) := by
  refine ⟨?_, ?_, formatText_eq_claimTransform⟩
  · intro params dev vis h
    have hp : pyGet params "text" (.str "") = .str "" := by
      unfold pyGet
      rcases h with h | h <;> rw [h]
    have hd : executeAction (typeAction params) dev vis
        = (match executeType params dev with
           | (.ok r, calls) => (r, calls)
           | (.error e, calls) => (execErrorObj e, calls)) := rfl
    rw [hd]
    unfold executeType
    rw [hp]
    rfl
  · intro runOk text h
    unfold adbTypeText
    rw [if_neg]
    simp only [String.isEmpty_iff]
    exact h

/-- Witness for C10 on concrete texts: empty text fails locally with no
device call; `a b` is sent as `a%sb`; a single-quote character is deleted. -/
theorem typeTextContract_witness :
    executeAction (typeAction (.obj [("text", .str "")])) sampleDevice
        sampleVision = (failObj "No text provided to type", []) ∧
    adbTypeText true (String.mk ['a', ' ', 'b'])
      = (true, some (formatText ['a', ' ', 'b'])) ∧
    formatText ['a', ' ', 'b'] = ['a', '%', 's', 'b'] ∧
    formatText ['a', squote, 'b'] = claimTransform ['a', squote, 'b'] ∧
    claimTransform ['a', squote, 'b'] = ['a', 'b'] := by
  refine ⟨?_, ?_, by decide, typeTextContract.2.2 ['a', squote, 'b'], by decide⟩
  · exact typeTextContract.1 (.obj [("text", .str "")]) sampleDevice
      sampleVision (Or.inr rfl)
  · exact typeTextContract.2.1 true (String.mk ['a', ' ', 'b']) (by decide)
